import Mathlib

/-!
Coupon service (`reviewsch`): embedding and verified properties

A shallow embedding of

* `internal/service/entity` (the `Basket` and `Coupon` records),
* `internal/repository/memdb` (the in-memory store),
* `internal/service` (the `Repository` interface and the `Service` methods),
* the `mockRepository` of `internal/service/service_test.go`,

followed by the properties proved about them.

Conventions of the embedding.

* A Go method on a pointer receiver with mutable state is a function of the
  state that gives back an `Outcome`: either the returned values together with
  the state left behind, or a run-time panic.
* A Go result pair `(*T, error)` is `Option T × Option Error`; `none` is `nil`.
* Go `float64` is the IEEE-754 binary64 bit pattern, with the comparisons of
  the language (every comparison with a NaN is false, `-0 == +0`).
* Go `int` values are never computed with in this code, they are only copied,
  and are modelled by `Int`; Go `string` by `String`.
* `uuid.NewString()` is an external random source: the identifier it returns is
  an argument of `CreateCoupon`.
-/

/-! ## Go values -/

/-- Go `float64`: the 64 bits of an IEEE-754 binary64 value
(1 sign bit, 11 exponent bits, 52 fraction bits). -/
structure Float64 where
  bits : Fin (2 ^ 64)
  deriving DecidableEq

namespace Float64

/-- Sign bit (bit 63). -/
def sign (x : Float64) : Bool := decide (2 ^ 63 ≤ x.bits.val)

/-- Biased exponent (bits 52..62). -/
def exponent (x : Float64) : Nat := (x.bits.val / 2 ^ 52) % 2 ^ 11

/-- Fraction (bits 0..51). -/
def fraction (x : Float64) : Nat := x.bits.val % 2 ^ 52

/-- A NaN has all exponent bits set and a non-zero fraction. -/
def isNaN (x : Float64) : Bool := x.exponent == 2047 && x.fraction != 0

/-- Position of a non-NaN value on the extended real line, as a sign-magnitude
integer: binary64 values of one sign are ordered like their bit patterns, and
both zeros are at position 0. -/
def key (x : Float64) : Int :=
  if x.sign then -((x.bits.val : Int) - 2 ^ 63) else (x.bits.val : Int)

/-- Go `x <= y` on `float64`: false when either operand is a NaN. -/
def le (x y : Float64) : Bool := !x.isNaN && !y.isNaN && decide (x.key ≤ y.key)

/-- Go `x > y` on `float64`: false when either operand is a NaN. -/
def gt (x y : Float64) : Bool := !x.isNaN && !y.isNaN && decide (y.key < x.key)

/-- The constant `0` converted to `float64` (positive zero). -/
def zero : Float64 := ⟨0⟩

/-- The value `100` (`0x4059000000000000`). -/
def hundred : Float64 := ⟨0x4059000000000000⟩

/-- The value `50` (`0x4049000000000000`). -/
def fifty : Float64 := ⟨0x4049000000000000⟩

/-- The value `-1` (`0xBFF0000000000000`). -/
def negOne : Float64 := ⟨0xBFF0000000000000⟩

/-- The quiet NaN returned by `math.NaN()` (`0x7FF8000000000001`). -/
def NaN : Float64 := ⟨0x7FF8000000000001⟩

end Float64

/-- Go `error` value: the message given by `Error()` and, for an error built
with the `%w` verb, the error it wraps. -/
inductive Error where
  | errorString (msg : String)
  | wrapError (msg : String) (err : Error)
  deriving DecidableEq

namespace Error

/-- The `Error()` method. -/
def message : Error → String
  | errorString msg => msg
  | wrapError msg _ => msg

end Error

/-- Result of calling a Go method on a receiver whose state has type `σ`. -/
inductive Outcome (α σ : Type) where
  | returns (val : α) (state : σ)
  | panics
  deriving DecidableEq

/-- Go `map[string]V`: `none` is the nil map, `some m` an allocated map, a
finite set of entries with pairwise distinct keys. -/
abbrev GoMap (V : Type) := Option (AList (fun _ : String => V))

namespace GoMap

/-- The expression `make(map[string]V)`. -/
def make {V : Type} : GoMap V := some ∅

/-- The expression `v, ok := m[k]`; `none` stands for `ok == false`. Indexing
a nil map is allowed and finds nothing. -/
def index {V : Type} (m : GoMap V) (k : String) : Option V :=
  match m with
  | none => none
  | some a => a.lookup k

/-- The statement `m[k] = v`; `none` stands for the panic
"assignment to entry in nil map". -/
def assign {V : Type} (m : GoMap V) (k : String) (v : V) : Option (GoMap V) :=
  match m with
  | none => none
  | some a => some (some (a.insert k v))

/-- Number of entries stored under key `k`. -/
def entriesAt {V : Type} (m : GoMap V) (k : String) : Nat :=
  match m with
  | none => 0
  | some a => a.keys.count k

end GoMap

/-! ## `internal/service/entity` -/

namespace entity

/-- The record `entity.Basket`. -/
structure Basket where
  Value : Float64
  AppliedDiscount : Int
  ApplicationSuccessful : Bool
  CouponCode : String
  deriving DecidableEq

/-- The record `entity.Coupon`. -/
structure Coupon where
  ID : String
  Code : String
  Discount : Int
  MinBasketValue : Float64
  deriving DecidableEq

end entity

/-! ## `internal/repository/memdb` -/

namespace memdb

open entity

/-- The struct `memdb.Repository`. -/
structure Repository where
  entries : GoMap Coupon

/-- The constructor `memdb.New`. -/
def New : Repository := { entries := GoMap.make }

/-- The method `(*Repository).FindByCode`; it never writes to the receiver. -/
def FindByCode (r : Repository) (code : String) : Option Coupon × Option Error :=
  match r.entries.index code with
  | none => (none, some (Error.errorString "coupon not found"))
  | some coupon => (some coupon, none)

/-- The method `(*Repository).Save`. -/
def Save (r : Repository) (coupon : Coupon) : Outcome (Option Error) Repository :=
  match r.entries.assign coupon.Code coupon with
  | none => Outcome.panics
  | some m => Outcome.returns none { entries := m }

/-- The states `memdb.New()` can be brought into by calls of `Save`. -/
inductive Reachable : Repository → Prop where
  | new : Reachable New
  | save (r r1 : Repository) (c : Coupon) (e : Option Error) :
      Reachable r → Save r c = Outcome.returns e r1 → Reachable r1

end memdb

/-! ## `internal/service` -/

namespace service

open entity

/-- The interface `service.Repository`, implemented over a state `σ`. Any
implementation may change its state in either method, return any combination
of pointer and error, or panic. -/
structure Repository (σ : Type) where
  FindByCode : σ → String → Outcome (Option Coupon × Option Error) σ
  Save : σ → Coupon → Outcome (Option Error) σ

/-- The struct `service.Service`. -/
structure Service (σ : Type) where
  repo : Repository σ

/-- The constructor `service.New`. -/
def New {σ : Type} (repo : Repository σ) : Service σ := { repo := repo }

/-- The method `(*Service).ApplyCoupon`. `st` is the state of the repository
at the call. The basket is received by value, so the caller's basket is not
changed; the returned one is the local copy. -/
def ApplyCoupon {σ : Type} (s : Service σ) (st : σ) (basket : Basket) (code : String) :
    Outcome (Option Basket × Option Error) σ :=
  if code = "" then
    Outcome.returns (none, some (Error.errorString "empty coupon code")) st
  else
    match s.repo.FindByCode st code with
    | Outcome.panics => Outcome.panics
    | Outcome.returns (coupon, err) st1 =>
      match err with
      | some e => Outcome.returns (none, some e) st1
      | none =>
        if Float64.le basket.Value Float64.zero then
          Outcome.returns (none, some (Error.errorString "invalid basket value")) st1
        else
          match coupon with
          | none => Outcome.panics
          | some c =>
            Outcome.returns
              (some { basket with
                        AppliedDiscount := c.Discount
                        ApplicationSuccessful := true
                        CouponCode := code }, none) st1

/-- The method `(*Service).CreateCoupon`; `id` is what `uuid.NewString()`
returns in this call. -/
def CreateCoupon {σ : Type} (s : Service σ) (st : σ) (id : String)
    (discount : Int) (code : String) (minBasketValue : Float64) :
    Outcome (Option Error) σ :=
  if code = "" then
    Outcome.returns (some (Error.errorString "empty coupon code")) st
  else
    s.repo.Save st
      { ID := id, Discount := discount, Code := code, MinBasketValue := minBasketValue }

/-- The loop of `GetCoupons`: `coupons` is the slice built so far. -/
def getCouponsLoop {σ : Type} (s : Service σ) :
    σ → List String → List Coupon → Outcome (Option (List Coupon) × Option Error) σ
  | st, [], coupons => Outcome.returns (some coupons, none) st
  | st, code :: rest, coupons =>
    match s.repo.FindByCode st code with
    | Outcome.panics => Outcome.panics
    | Outcome.returns (coupon, err) st1 =>
      match err with
      | some e =>
        Outcome.returns
          (none, some (Error.wrapError
            ("error finding coupon " ++ code ++ ": " ++ e.message) e)) st1
      | none =>
        match coupon with
        | none => Outcome.panics
        | some c => getCouponsLoop s st1 rest (coupons ++ [c])

/-- The method `(*Service).GetCoupons`. -/
def GetCoupons {σ : Type} (s : Service σ) (st : σ) (codes : List String) :
    Outcome (Option (List Coupon) × Option Error) σ :=
  getCouponsLoop s st codes []

/-- The in-memory store as an implementation of the interface. -/
def memdbRepository : Repository memdb.Repository where
  FindByCode := fun r code => Outcome.returns (memdb.FindByCode r code) r
  Save := memdb.Save

/-- The struct `mockRepository` of `service_test.go`: a map of coupon pointers
(a stored pointer may be nil) and the error every call is to fail with. -/
structure mockRepository where
  coupons : GoMap (Option Coupon)
  err : Option Error

/-- The constructor `newMockRepository`. -/
def newMockRepository : mockRepository := { coupons := GoMap.make, err := none }

/-- The method `(*mockRepository).FindByCode`. -/
def mockRepository.FindByCode (m : mockRepository) (code : String) :
    Option Coupon × Option Error :=
  match m.err with
  | some e => (none, some e)
  | none =>
    match m.coupons.index code with
    | none => (none, some (Error.errorString "coupon not found"))
    | some coupon => (coupon, none)

/-- The method `(*mockRepository).Save`. -/
def mockRepository.Save (m : mockRepository) (coupon : Coupon) :
    Outcome (Option Error) mockRepository :=
  match m.err with
  | some e => Outcome.returns (some e) m
  | none =>
    match m.coupons.assign coupon.Code (some coupon) with
    | none => Outcome.panics
    | some mp => Outcome.returns none { m with coupons := mp }

/-- The mock as an implementation of the interface. -/
def mockRepo : Repository mockRepository where
  FindByCode := fun m code => Outcome.returns (m.FindByCode code) m
  Save := mockRepository.Save

/-- Specification side of `GetCoupons`: `AllFound s st codes cs st1` says that
looking the codes up one after the other, from the repository state `st`,
succeeds every time: the lookup of the i-th code returns the coupon `cs[i]`
and no error, and the lookups leave the repository in state `st1`. -/
inductive AllFound {σ : Type} (s : Service σ) : σ → List String → List Coupon → σ → Prop where
  | nil (st : σ) : AllFound s st [] [] st
  | cons (st st1 st2 : σ) (code : String) (c : Coupon) (rest : List String)
      (cs : List Coupon) :
      s.repo.FindByCode st code = Outcome.returns (some c, none) st1 →
      AllFound s st1 rest cs st2 → AllFound s st (code :: rest) (c :: cs) st2

/-- The states the in-memory store `memdb.New()` can be brought into when it
is written only through `Service.CreateCoupon`. -/
inductive CreatedOnly : memdb.Repository → Prop where
  | new : CreatedOnly memdb.New
  | create (r r1 : memdb.Repository) (id : String) (discount : Int) (code : String)
      (minBasketValue : Float64) (e : Option Error) :
      CreatedOnly r →
      CreateCoupon (New memdbRepository) r id discount code minBasketValue =
        Outcome.returns e r1 →
      CreatedOnly r1

end service

/-! ## Sample values used to instantiate the theorems -/

namespace sample

open entity

/-- The coupon of the scenario `CreateCoupon(10, "SUMMER2024", 50.0)`. -/
def summer : Coupon :=
  { ID := "6f1c0a52-3f0e-4c58-9a53-0d5c1d0b7e11", Code := "SUMMER2024", Discount := 10,
    MinBasketValue := Float64.fifty }

/-- A coupon whose minimum basket value (100) is above the basket values used
with it. -/
def test10 : Coupon :=
  { ID := "", Code := "TEST10", Discount := 10, MinBasketValue := Float64.hundred }

/-- The in-memory store holding exactly `summer`. -/
def storeSummer : memdb.Repository :=
  { entries := some (AList.insert "SUMMER2024" summer ∅) }

/-- The in-memory store holding exactly `test10`. -/
def storeTest10 : memdb.Repository :=
  { entries := some (AList.insert "TEST10" test10 ∅) }

/-- The coupon "TEST3" with discount 20. -/
def test3 : Coupon :=
  { ID := "a", Code := "TEST3", Discount := 20, MinBasketValue := Float64.zero }

/-- Another coupon "TEST3": discount 25, other identifier and minimum. -/
def test3new : Coupon :=
  { ID := "b", Code := "TEST3", Discount := 25, MinBasketValue := Float64.fifty }

/-- The in-memory store after `Save(test3)` on the fresh store. -/
def storeTest3 : memdb.Repository :=
  { entries := some (AList.insert "TEST3" test3 ∅) }

/-- The in-memory store after `Save(test3)` and `Save(test3new)` on the fresh
store. -/
def storeTest3new : memdb.Repository :=
  { entries := some (AList.insert "TEST3" test3new (AList.insert "TEST3" test3 ∅)) }

/-- The coupon `CreateCoupon(-5, "TEST3", -1)` builds when the identifier
drawn is "c". -/
def created : Coupon :=
  { ID := "c", Code := "TEST3", Discount := -5, MinBasketValue := Float64.negOne }

/-- The in-memory store `storeTest3` after that `CreateCoupon`. -/
def storeCreated : memdb.Repository :=
  { entries := some (AList.insert "TEST3" created (AList.insert "TEST3" test3 ∅)) }

/-- The mock holding `test3`. -/
def mockTest3 : service.mockRepository :=
  { coupons := some (AList.insert "TEST3" (some test3) ∅), err := none }

/-- The mock `mockTest3` after that `CreateCoupon`. -/
def mockCreated : service.mockRepository :=
  { coupons := some (AList.insert "TEST3" (some created)
      (AList.insert "TEST3" (some test3) ∅)), err := none }

/-- A mock repository failing every call with "database error". -/
def failingMock : service.mockRepository :=
  { coupons := GoMap.make, err := some (Error.errorString "database error") }

/-- The in-memory store after `Save(summer)` and `Save(test10)` on the fresh
store. -/
def storeBoth : memdb.Repository :=
  { entries := some (AList.insert "TEST10" test10 (AList.insert "SUMMER2024" summer ∅)) }

/-- A basket of the given value on which no coupon has been applied. -/
def basketOf (v : Float64) : Basket :=
  { Value := v, AppliedDiscount := 0, ApplicationSuccessful := false, CouponCode := "" }

end sample

/-! ## Auxiliary facts -/

namespace Float64

/-- A value that is `> y` is not `<= y`. -/
theorem le_eq_false_of_gt {x y : Float64} (h : gt x y = true) : le x y = false := by
  simp only [gt, Bool.and_eq_true, Bool.not_eq_true', decide_eq_true_eq] at h
  simp only [le, Bool.and_eq_false_imp, Bool.not_eq_true', decide_eq_false_iff_not,
    Bool.and_eq_true, not_le]
  intro _
  exact h.2

/-- A value that is neither `<= y` nor a NaN, compared with a non-NaN `y`,
is `> y`. -/
theorem gt_of_le_eq_false {x y : Float64} (h : le x y = false) (hx : x.isNaN = false)
    (hy : y.isNaN = false) : gt x y = true := by
  simp only [le, hx, hy, Bool.not_false, Bool.true_and, decide_eq_false_iff_not, not_le] at h
  simp only [gt, hx, hy, Bool.not_false, Bool.true_and, decide_eq_true_eq]
  exact h

end Float64

namespace GoMap

theorem index_assign_self {V : Type} (m m1 : GoMap V) (k : String) (v : V)
    (h : m.assign k v = some m1) : m1.index k = some v := by
  cases m with
  | none => simp [assign] at h
  | some a =>
    simp only [assign, Option.some.injEq] at h
    subst h
    simp [index, AList.lookup_insert]

theorem index_assign_of_ne {V : Type} (m m1 : GoMap V) (k k1 : String) (v : V)
    (h : m.assign k v = some m1) (hk : k1 ≠ k) : m1.index k1 = m.index k1 := by
  cases m with
  | none => simp [assign] at h
  | some a =>
    simp only [assign, Option.some.injEq] at h
    subst h
    simp [index, AList.lookup_insert_ne hk]

theorem entriesAt_assign_self {V : Type} (m m1 : GoMap V) (k : String) (v : V)
    (h : m.assign k v = some m1) : m1.entriesAt k = 1 := by
  cases m with
  | none => simp [assign] at h
  | some a =>
    simp only [assign, Option.some.injEq] at h
    subst h
    simp only [entriesAt]
    exact List.count_eq_one_of_mem (AList.keys_nodup _)
      (AList.mem_keys.mp ((AList.mem_insert a).mpr (Or.inl rfl)))

theorem index_eq_none_iff {V : Type} (m : GoMap V) (k : String) :
    m.index k = none ↔ m.entriesAt k = 0 := by
  cases m with
  | none => simp [index, entriesAt]
  | some a =>
    simp only [index, entriesAt, AList.lookup_eq_none, List.count_eq_zero, AList.mem_keys]

theorem assign_isSome {V : Type} (m : GoMap V) (k : String) (v : V) (h : m ≠ none) :
    ∃ a, m.assign k v = some (some a) := by
  cases m with
  | none => exact absurd rfl h
  | some a => exact ⟨_, rfl⟩

end GoMap

namespace service

open entity

/-- What the code guarantees about the value of a basket it returns: the
test `Value <= 0` was false, so the value is `> 0` or a NaN. -/
theorem applyCoupon_returned_value {σ : Type} (s : Service σ) (st st1 : σ) (b b1 : Basket)
    (code : String) (e : Option Error)
    (h : ApplyCoupon s st b code = Outcome.returns (some b1, e) st1) :
    Float64.le b.Value Float64.zero = false ∧
      (Float64.gt b.Value Float64.zero = true ∨ b.Value.isNaN = true) := by
  have hle : Float64.le b.Value Float64.zero = false := by
    unfold ApplyCoupon at h
    split at h
    · simp at h
    · split at h
      · cases h
      · split at h
        · simp at h
        · split at h
          · simp at h
          · next hv => simpa using hv
  refine ⟨hle, ?_⟩
  cases hn : b.Value.isNaN with
  | true => exact Or.inr rfl
  | false => exact Or.inl (Float64.gt_of_le_eq_false hle hn (by decide))

end service

/-! ## `Service.ApplyCoupon` -/

namespace service

open entity

/-- C1. Success postcondition of `ApplyCoupon`: when the code is not empty, the
repository's `FindByCode` returns a coupon `c` without error and the basket
value is `> 0`, the call returns no error and the basket with the same `Value`,
`AppliedDiscount = c.Discount`, `ApplicationSuccessful = true` and
`CouponCode = code`. Neither `c.ID` nor `c.MinBasketValue` is constrained. -/
theorem applyCoupon_success {σ : Type} (s : Service σ) (st st1 : σ) (b : Basket)
    (code : String) (c : Coupon) (hcode : code ≠ "")
    (hfind : s.repo.FindByCode st code = Outcome.returns (some c, none) st1)
    (hpos : Float64.gt b.Value Float64.zero = true) :
    ApplyCoupon s st b code =
      Outcome.returns
        (some { Value := b.Value, AppliedDiscount := c.Discount,
                ApplicationSuccessful := true, CouponCode := code }, none) st1 := by
  simp [ApplyCoupon, hcode, hfind, Float64.le_eq_false_of_gt hpos]

/-- Instance of C1 on the in-memory store: a basket of value 50 and a coupon
whose minimum basket value is 100. -/
theorem applyCoupon_success_witness :
    Float64.gt (sample.basketOf Float64.fifty).Value sample.test10.MinBasketValue = false ∧
    ApplyCoupon (New memdbRepository) sample.storeTest10 (sample.basketOf Float64.fifty)
        "TEST10" =
      Outcome.returns
        (some { Value := Float64.fifty, AppliedDiscount := 10,
                ApplicationSuccessful := true, CouponCode := "TEST10" }, none)
        sample.storeTest10 :=
  ⟨by decide,
   applyCoupon_success (New memdbRepository) sample.storeTest10 sample.storeTest10
     (sample.basketOf Float64.fifty) "TEST10" sample.test10 (by decide) rfl (by decide)⟩

/-- C2. With the empty code `ApplyCoupon` returns no basket and the error
"empty coupon code", for every basket, every repository implementation and
every repository state, and leaves the repository state as it was: the result
does not depend on the repository, whose methods may fail, panic or write. -/
theorem applyCoupon_empty_code {σ : Type} (s : Service σ) (st : σ) (b : Basket) :
    ApplyCoupon s st b "" =
      Outcome.returns (none, some (Error.errorString "empty coupon code")) st := by
  simp [ApplyCoupon]

/-- C3. A failing lookup is passed on unchanged and comes before the basket
check: when the code is not empty and `FindByCode` returns the error `e`
(with any pointer), `ApplyCoupon` returns no basket and the error `e`, whatever
the basket value is. -/
theorem applyCoupon_lookup_error {σ : Type} (s : Service σ) (st st1 : σ) (b : Basket)
    (code : String) (ptr : Option Coupon) (e : Error) (hcode : code ≠ "")
    (hfind : s.repo.FindByCode st code = Outcome.returns (ptr, some e) st1) :
    ApplyCoupon s st b code = Outcome.returns (none, some e) st1 := by
  simp [ApplyCoupon, hcode, hfind]

/-- Instance of C3 on the freshly constructed in-memory store with a basket of
value 0: the error is "coupon not found". -/
theorem applyCoupon_lookup_error_witness :
    Float64.le (sample.basketOf Float64.zero).Value Float64.zero = true ∧
    ApplyCoupon (New memdbRepository) memdb.New (sample.basketOf Float64.zero) "INVALID" =
      Outcome.returns (none, some (Error.errorString "coupon not found")) memdb.New :=
  ⟨by decide,
   applyCoupon_lookup_error (New memdbRepository) memdb.New memdb.New
     (sample.basketOf Float64.zero) "INVALID" none (Error.errorString "coupon not found")
     (by decide) rfl⟩

/-- C4. A basket whose value is `<= 0` is rejected: when the code is not empty
and `FindByCode` returns a coupon without error, `ApplyCoupon` returns no
basket and the error "invalid basket value". -/
theorem applyCoupon_invalid_basket {σ : Type} (s : Service σ) (st st1 : σ) (b : Basket)
    (code : String) (c : Coupon) (hcode : code ≠ "")
    (hfind : s.repo.FindByCode st code = Outcome.returns (some c, none) st1)
    (hval : Float64.le b.Value Float64.zero = true) :
    ApplyCoupon s st b code =
      Outcome.returns (none, some (Error.errorString "invalid basket value")) st1 := by
  simp [ApplyCoupon, hcode, hfind, hval]

/-- Instance of C4: basket value 0 with the stored coupon "SUMMER2024". -/
theorem applyCoupon_invalid_basket_witness :
    ApplyCoupon (New memdbRepository) sample.storeSummer (sample.basketOf Float64.zero)
        "SUMMER2024" =
      Outcome.returns (none, some (Error.errorString "invalid basket value"))
        sample.storeSummer :=
  applyCoupon_invalid_basket (New memdbRepository) sample.storeSummer sample.storeSummer
    (sample.basketOf Float64.zero) "SUMMER2024" sample.summer (by decide) rfl (by decide)

/-- C5, evaluated at a NaN basket: with the stored coupon "SUMMER2024" the call
`ApplyCoupon({Value: NaN}, "SUMMER2024")` returns a basket without error,
although `NaN > 0` is false (and so is `NaN <= 0`, the only test the code
makes). -/
theorem applyCoupon_nan_basket :
    ApplyCoupon (New memdbRepository) sample.storeSummer (sample.basketOf Float64.NaN)
        "SUMMER2024" =
      Outcome.returns
        (some { Value := Float64.NaN, AppliedDiscount := 10,
                ApplicationSuccessful := true, CouponCode := "SUMMER2024" }, none)
        sample.storeSummer ∧
    Float64.gt (sample.basketOf Float64.NaN).Value Float64.zero = false ∧
    Float64.le (sample.basketOf Float64.NaN).Value Float64.zero = false :=
  ⟨rfl, by decide, by decide⟩

end service

/-! ## The in-memory store -/

namespace memdb

open entity

/-- `Save` returns, without error, exactly on the receivers whose map is
allocated. -/
theorem save_returns (r : Repository) (c : Coupon) (h : r.entries ≠ none) :
    ∃ r1, Save r c = Outcome.returns none r1 := by
  obtain ⟨a, ha⟩ := GoMap.assign_isSome r.entries c.Code c h
  exact ⟨{ entries := some a }, by simp [Save, ha]⟩

/-- What a returning `Save` leaves behind. -/
theorem save_eq_returns (r r1 : Repository) (c : Coupon) (e : Option Error)
    (h : Save r c = Outcome.returns e r1) :
    e = none ∧ r.entries.assign c.Code c = some r1.entries := by
  unfold Save at h
  split at h
  · cases h
  · next m hm =>
    simp only [Outcome.returns.injEq] at h
    obtain ⟨h1, h2⟩ := h
    subst h2
    exact ⟨h1.symm, hm⟩

/-- Every state reachable from `New` has an allocated map. -/
theorem Reachable.entries_ne_none {r : Repository} (h : Reachable r) : r.entries ≠ none := by
  cases h with
  | new => simp [New, GoMap.make]
  | save r0 _ c e _ hs =>
    have h2 := (save_eq_returns r0 r c e hs).2
    intro hn
    rw [hn] at h2
    cases hr : r0.entries with
    | none => simp [hr, GoMap.assign] at h2
    | some a => simp [hr, GoMap.assign] at h2

/-- C6. Store round trip: in every state reachable from `New()` (the fresh
store included) `Save(c)` returns no error, and a following
`FindByCode(c.Code)` returns no error and the coupon `c` itself, equal in `ID`,
`Code`, `Discount` and `MinBasketValue`. -/
theorem save_find_roundtrip (r : Repository) (h : Reachable r) (c : Coupon) :
    ∃ r1, Save r c = Outcome.returns none r1 ∧ FindByCode r1 c.Code = (some c, none) := by
  obtain ⟨r1, h1⟩ := save_returns r c (Reachable.entries_ne_none h)
  refine ⟨r1, h1, ?_⟩
  have h2 := GoMap.index_assign_self _ _ _ _ (save_eq_returns r r1 c none h1).2
  simp [FindByCode, h2]

/-- Instance of C6: saving `test10` in the store that already holds `summer`,
a state reached from `New()` by one `Save`. -/
theorem save_find_roundtrip_witness :
    Reachable sample.storeSummer ∧
    ∃ r1, Save sample.storeSummer sample.test10 = Outcome.returns none r1 ∧
      FindByCode r1 "TEST10" = (some sample.test10, none) :=
  ⟨Reachable.save New sample.storeSummer sample.summer none Reachable.new rfl,
   save_find_roundtrip sample.storeSummer
     (Reachable.save New sample.storeSummer sample.summer none Reachable.new rfl)
     sample.test10⟩

/-- C7. Overwrite is last-write-wins. For every store state and coupons `c`,
`c1` with the same code: whenever `Save(c)` and then `Save(c1)` return, the
following `FindByCode(c.Code)` returns exactly `c1` without error and the map
holds one entry under that code; and on every state whose map is allocated
both calls do return, without error. (On a receiver with a nil map, which
`New()` never produces, `Save` panics and there is no state afterwards.) -/
theorem save_last_write_wins (r : Repository) (c c1 : Coupon) (hcode : c.Code = c1.Code) :
    (∀ e1 r1 e2 r2, Save r c = Outcome.returns e1 r1 → Save r1 c1 = Outcome.returns e2 r2 →
        FindByCode r2 c.Code = (some c1, none) ∧ r2.entries.entriesAt c.Code = 1) ∧
    (r.entries ≠ none →
       ∃ r1 r2, Save r c = Outcome.returns none r1 ∧ Save r1 c1 = Outcome.returns none r2) := by
  constructor
  · intro e1 r1 e2 r2 _ h2
    have ha := (save_eq_returns r1 r2 c1 e2 h2).2
    rw [hcode]
    have hi := GoMap.index_assign_self _ _ _ _ ha
    exact ⟨by simp [FindByCode, hi], GoMap.entriesAt_assign_self _ _ _ _ ha⟩
  · intro hr
    obtain ⟨r1, h1⟩ := save_returns r c hr
    have hr1 : r1.entries ≠ none := by
      have h := (save_eq_returns r r1 c none h1).2
      intro hn
      rw [hn] at h
      cases hre : r.entries with
      | none => exact hr hre
      | some a => simp [hre, GoMap.assign] at h
    obtain ⟨r2, h2⟩ := save_returns r1 c1 hr1
    exact ⟨r1, r2, h1, h2⟩

/-- Instance of C7 on the fresh store: `Save(test3)`, `Save(test3new)`, then
`FindByCode("TEST3")` gives `test3new`; one entry is held under "TEST3". -/
theorem save_last_write_wins_witness :
    sample.test3.Code = sample.test3new.Code ∧
    Save New sample.test3 = Outcome.returns none sample.storeTest3 ∧
    Save sample.storeTest3 sample.test3new = Outcome.returns none sample.storeTest3new ∧
    FindByCode sample.storeTest3new "TEST3" = (some sample.test3new, none) ∧
    sample.storeTest3new.entries.entriesAt "TEST3" = 1 :=
  ⟨rfl, rfl, rfl,
   (save_last_write_wins New sample.test3 sample.test3new rfl).1
     none sample.storeTest3 none sample.storeTest3new rfl rfl⟩

/-- C8. Lookup miss: `FindByCode(code)` returns no coupon and the error
"coupon not found" exactly when the map holds no entry under `code`; in
particular for every code on the store `New()` returns. -/
theorem findByCode_miss_iff :
    (∀ (r : Repository) (code : String),
        FindByCode r code = (none, some (Error.errorString "coupon not found")) ↔
          r.entries.entriesAt code = 0) ∧
    (∀ code : String,
        FindByCode New code = (none, some (Error.errorString "coupon not found"))) := by
  constructor
  · intro r code
    rw [← GoMap.index_eq_none_iff]
    unfold FindByCode
    cases h : r.entries.index code with
    | none => simp
    | some c => simp
  · intro code
    simp [FindByCode, New, GoMap.make, GoMap.index]

end memdb

/-! ## `Service.CreateCoupon` -/

namespace service

open entity

/-- What a `Save` of the mock that returns without error leaves behind. -/
theorem mockRepository.mock_save_returns (m m1 : mockRepository) (c : Coupon)
    (h : m.Save c = Outcome.returns none m1) :
    m.err = none ∧ m1.err = none ∧ m.coupons.assign c.Code (some c) = some m1.coupons := by
  unfold mockRepository.Save at h
  cases he : m.err with
  | some e => simp [he] at h
  | none =>
    simp only [he] at h
    split at h
    · cases h
    · next mp hm =>
      simp only [Outcome.returns.injEq, true_and] at h
      subst h
      exact ⟨rfl, rfl, hm⟩

/-- C9. With the empty code `CreateCoupon` returns the error
"empty coupon code" for every discount, minimum basket value, identifier,
repository implementation and repository state, and the repository is left in
the state it was in: `Save` is not called. -/
theorem createCoupon_empty_code {σ : Type} (s : Service σ) (st : σ) (id : String)
    (discount : Int) (minBasketValue : Float64) :
    CreateCoupon s st id discount "" minBasketValue =
      Outcome.returns (some (Error.errorString "empty coupon code")) st := by
  simp [CreateCoupon]

/-- C10. `CreateCoupon` stores what it was given. For every non-empty code,
every discount and every minimum basket value: over any repository the call
is the repository's `Save` of the coupon with that code, discount and minimum
basket value (and the identifier drawn), so it returns no error when `Save`
does; and on the in-memory store and on the mock repository alike, when that
`Save` returns without error, `CreateCoupon` returns no error and leaves the
state in which `FindByCode(code)` returns, without error, that coupon,
whatever was stored under the code before; the in-memory map holds one entry
under it. -/
theorem createCoupon_stores (id code : String) (discount : Int) (minBasketValue : Float64)
    (hcode : code ≠ "") :
    (∀ (σ : Type) (s : Service σ) (st : σ),
      CreateCoupon s st id discount code minBasketValue =
        s.repo.Save st { ID := id, Code := code, Discount := discount,
                         MinBasketValue := minBasketValue }) ∧
    (∀ r r1 : memdb.Repository,
      memdb.Save r { ID := id, Code := code, Discount := discount,
                     MinBasketValue := minBasketValue } = Outcome.returns none r1 →
      CreateCoupon (New memdbRepository) r id discount code minBasketValue =
          Outcome.returns none r1 ∧
        memdb.FindByCode r1 code =
          (some { ID := id, Code := code, Discount := discount,
                  MinBasketValue := minBasketValue }, none) ∧
        r1.entries.entriesAt code = 1) ∧
    (∀ m m1 : mockRepository,
      m.Save { ID := id, Code := code, Discount := discount,
               MinBasketValue := minBasketValue } = Outcome.returns none m1 →
      CreateCoupon (New mockRepo) m id discount code minBasketValue =
          Outcome.returns none m1 ∧
        m1.FindByCode code =
          (some { ID := id, Code := code, Discount := discount,
                  MinBasketValue := minBasketValue }, none)) := by
  refine ⟨?_, ?_, ?_⟩
  · intro σ s st
    simp [CreateCoupon, hcode]
  · intro r r1 hs
    have ha := (memdb.save_eq_returns r r1 _ none hs).2
    refine ⟨?_, ?_, GoMap.entriesAt_assign_self _ _ _ _ ha⟩
    · simp [CreateCoupon, hcode, New, memdbRepository, hs]
    · simp [memdb.FindByCode, GoMap.index_assign_self _ _ _ _ ha]
  · intro m m1 hs
    refine ⟨by simp [CreateCoupon, hcode, New, mockRepo, hs], ?_⟩
    obtain ⟨_, he1, ha⟩ := mockRepository.mock_save_returns m m1 _ hs
    simp [mockRepository.FindByCode, he1, GoMap.index_assign_self _ _ _ _ ha]

/-- Instance of C10: `CreateCoupon(-5, "TEST3", -1)` on the in-memory store and
on the mock, each already holding a coupon "TEST3" with discount 20. -/
theorem createCoupon_stores_witness :
    (CreateCoupon (New memdbRepository) sample.storeTest3 "c" (-5) "TEST3" Float64.negOne =
        Outcome.returns none sample.storeCreated ∧
      memdb.FindByCode sample.storeCreated "TEST3" = (some sample.created, none) ∧
      sample.storeCreated.entries.entriesAt "TEST3" = 1) ∧
    (CreateCoupon (New mockRepo) sample.mockTest3 "c" (-5) "TEST3" Float64.negOne =
        Outcome.returns none sample.mockCreated ∧
      sample.mockCreated.FindByCode "TEST3" = (some sample.created, none)) :=
  ⟨(createCoupon_stores "c" "TEST3" (-5) Float64.negOne (by decide)).2.1
     sample.storeTest3 sample.storeCreated rfl,
   (createCoupon_stores "c" "TEST3" (-5) Float64.negOne (by decide)).2.2
     sample.mockTest3 sample.mockCreated rfl⟩

end service

namespace service

open entity

/-- C11. `CreateCoupon` passes a failure of the store on unchanged: when the
code is not empty and the repository's `Save` of the new coupon returns the
error `e`, `CreateCoupon` returns exactly `e`, and leaves the repository in
the state `Save` left it in. -/
theorem createCoupon_save_error {σ : Type} (s : Service σ) (st st1 : σ) (id : String)
    (discount : Int) (code : String) (minBasketValue : Float64) (e : Error)
    (hcode : code ≠ "")
    (hsave : s.repo.Save st { ID := id, Code := code, Discount := discount,
                              MinBasketValue := minBasketValue } =
      Outcome.returns (some e) st1) :
    CreateCoupon s st id discount code minBasketValue = Outcome.returns (some e) st1 := by
  simp [CreateCoupon, hcode, hsave]

/-- Instance of C11: the mock failing with "database error",
`CreateCoupon(10, "ERROR10", 50)`. -/
theorem createCoupon_save_error_witness :
    CreateCoupon (New mockRepo) sample.failingMock "x" 10 "ERROR10" Float64.fifty =
      Outcome.returns (some (Error.errorString "database error")) sample.failingMock :=
  createCoupon_save_error (New mockRepo) sample.failingMock sample.failingMock "x" 10
    "ERROR10" Float64.fifty (Error.errorString "database error") (by decide) rfl

end service

/-! ## `Service.GetCoupons` -/

namespace service

open entity

/-- The loop appends the coupons found, in order, to the slice it was given. -/
theorem getCouponsLoop_allFound {σ : Type} (s : Service σ) {st st1 : σ}
    {codes : List String} {cs : List Coupon} (h : AllFound s st codes cs st1)
    (acc : List Coupon) :
    getCouponsLoop s st codes acc = Outcome.returns (some (acc ++ cs), none) st1 := by
  induction h generalizing acc with
  | nil st => simp [getCouponsLoop]
  | cons st st1 st2 code c rest cs hf _ ih =>
    simp [getCouponsLoop, hf, ih (acc ++ [c])]

/-- The loop stops at the first lookup that returns an error. -/
theorem getCouponsLoop_first_error {σ : Type} (s : Service σ) {st st1 st2 : σ}
    {pre : List String} {cs : List Coupon} (h : AllFound s st pre cs st1)
    (code : String) (post : List String) (ptr : Option Coupon) (e : Error)
    (hf : s.repo.FindByCode st1 code = Outcome.returns (ptr, some e) st2)
    (acc : List Coupon) :
    getCouponsLoop s st (pre ++ code :: post) acc =
      Outcome.returns
        (none, some (Error.wrapError
          ("error finding coupon " ++ code ++ ": " ++ e.message) e)) st2 := by
  induction h generalizing acc with
  | nil st => simp [getCouponsLoop, hf]
  | cons st st1 st3 c0 c rest cs hf0 _ ih =>
    simp [getCouponsLoop, hf0, ih hf (acc ++ [c])]

/-- As many coupons are found as codes are looked up. -/
theorem AllFound.length_eq {σ : Type} {s : Service σ} {st st1 : σ}
    {codes : List String} {cs : List Coupon} (h : AllFound s st codes cs st1) :
    cs.length = codes.length := by
  induction h with
  | nil st => rfl
  | cons st st1 st2 code c rest cs _ _ ih => simp [ih]

end service

namespace memdb

open entity

/-- Every entry of a state reachable from `New()` is stored under its own
code. -/
theorem Reachable.index_code {r : Repository} (h : Reachable r) (k : String) (c : Coupon)
    (hk : r.entries.index k = some c) : c.Code = k := by
  induction h generalizing k c with
  | new => simp [New, GoMap.make, GoMap.index] at hk
  | save r0 r1 c0 e _ hs ih =>
    have ha := (save_eq_returns r0 r1 c0 e hs).2
    by_cases hkc : k = c0.Code
    · subst hkc
      rw [GoMap.index_assign_self _ _ _ _ ha] at hk
      cases hk
      rfl
    · rw [GoMap.index_assign_of_ne _ _ _ _ _ ha hkc] at hk
      exact ih k c hk

/-- What a successful `FindByCode` says about the map. -/
theorem findByCode_eq_some (r : Repository) (k : String) (c : Coupon) (e : Option Error)
    (h : FindByCode r k = (some c, e)) : r.entries.index k = some c ∧ e = none := by
  unfold FindByCode at h
  split at h
  · simp at h
  · next c0 hc =>
    simp only [Prod.mk.injEq, Option.some.injEq] at h
    exact ⟨by rw [hc, h.1], h.2.symm⟩

end memdb

namespace service

open entity

/-- On the in-memory store, codes that are all found are found one after the
other, the store staying as it is. -/
theorem memdb_allFound (r : memdb.Repository) (codes : List String)
    (h : ∀ code ∈ codes, ∃ c, memdb.FindByCode r code = (some c, none)) :
    ∃ cs, AllFound (New memdbRepository) r codes cs r ∧
      List.Forall₂ (fun code c => memdb.FindByCode r code = (some c, none)) codes cs := by
  induction codes with
  | nil => exact ⟨[], AllFound.nil r, List.Forall₂.nil⟩
  | cons code rest ih =>
    obtain ⟨c, hc⟩ := h code (List.mem_cons_self _ _)
    obtain ⟨cs, hcs, hall⟩ := ih (fun k hk => h k (List.mem_cons_of_mem _ hk))
    refine ⟨c :: cs, AllFound.cons r r r code c rest cs ?_ hcs, List.Forall₂.cons hc hall⟩
    simp [New, memdbRepository, hc]

/-- C12. `GetCoupons` preserves order. Over any repository: when the lookups
of the codes, made one after the other, all succeed and return the coupons
`cs` (the i-th lookup returning `cs[i]`), `GetCoupons(codes)` returns no error
and exactly the list `cs`, as long as `codes`. Over the in-memory store in a
state reachable from `New()`: when every code of the list (repetitions
allowed) is found, `GetCoupons(codes)` returns no error and a list as long as
`codes` whose i-th element is what `FindByCode(codes[i])` returns and has
`Code = codes[i]`. -/
theorem getCoupons_preserves_order :
    (∀ (σ : Type) (s : Service σ) (st st1 : σ) (codes : List String) (cs : List Coupon),
      AllFound s st codes cs st1 →
        GetCoupons s st codes = Outcome.returns (some cs, none) st1 ∧
          cs.length = codes.length) ∧
    (∀ (r : memdb.Repository) (codes : List String), memdb.Reachable r →
      (∀ code ∈ codes, ∃ c, memdb.FindByCode r code = (some c, none)) →
      ∃ cs, GetCoupons (New memdbRepository) r codes = Outcome.returns (some cs, none) r ∧
        cs.length = codes.length ∧
        ∀ (i : Nat) (hi : i < codes.length) (hj : i < cs.length),
          memdb.FindByCode r codes[i] = (some cs[i], none) ∧ cs[i].Code = codes[i]) := by
  constructor
  · intro σ s st st1 codes cs h
    refine ⟨?_, h.length_eq⟩
    simpa [GetCoupons] using getCouponsLoop_allFound s h []
  · intro r codes hr hall
    obtain ⟨cs, hcs, hf2⟩ := memdb_allFound r codes hall
    refine ⟨cs, ?_, hcs.length_eq, ?_⟩
    · simpa [GetCoupons] using getCouponsLoop_allFound (New memdbRepository) hcs []
    · intro i hi hj
      have hget := hf2.get hi hj
      simp only [List.get_eq_getElem] at hget
      refine ⟨hget, ?_⟩
      exact memdb.Reachable.index_code hr _ _ (memdb.findByCode_eq_some r _ _ none hget).1

/-- Instance of C12 on the in-memory store holding "SUMMER2024" and "TEST10":
`GetCoupons(["TEST10", "SUMMER2024", "TEST10"])`. -/
theorem getCoupons_preserves_order_witness :
    memdb.Reachable sample.storeBoth ∧
    GetCoupons (New memdbRepository) sample.storeBoth ["TEST10", "SUMMER2024", "TEST10"] =
      Outcome.returns (some [sample.test10, sample.summer, sample.test10], none)
        sample.storeBoth ∧
    [sample.test10, sample.summer, sample.test10].map Coupon.Code =
      ["TEST10", "SUMMER2024", "TEST10"] ∧
    ∃ cs, GetCoupons (New memdbRepository) sample.storeBoth
        ["TEST10", "SUMMER2024", "TEST10"] =
          Outcome.returns (some cs, none) sample.storeBoth ∧
      cs.length = 3 :=
  ⟨memdb.Reachable.save sample.storeSummer sample.storeBoth sample.test10 none
     (memdb.Reachable.save memdb.New sample.storeSummer sample.summer none
       memdb.Reachable.new rfl) rfl,
   (getCoupons_preserves_order.1 memdb.Repository (New memdbRepository) sample.storeBoth
     sample.storeBoth ["TEST10", "SUMMER2024", "TEST10"]
     [sample.test10, sample.summer, sample.test10]
     (AllFound.cons _ _ _ _ _ _ _ rfl
       (AllFound.cons _ _ _ _ _ _ _ rfl
         (AllFound.cons _ _ _ _ _ _ _ rfl (AllFound.nil _))))).1,
   rfl,
   (getCoupons_preserves_order.2 sample.storeBoth ["TEST10", "SUMMER2024", "TEST10"]
     (memdb.Reachable.save sample.storeSummer sample.storeBoth sample.test10 none
       (memdb.Reachable.save memdb.New sample.storeSummer sample.summer none
         memdb.Reachable.new rfl) rfl)
     (by
       intro code hc
       simp only [List.mem_cons, List.mem_singleton, List.not_mem_nil, or_false] at hc
       rcases hc with rfl | rfl | rfl
       · exact ⟨sample.test10, rfl⟩
       · exact ⟨sample.summer, rfl⟩
       · exact ⟨sample.test10, rfl⟩)).imp
     (fun _ hcs => ⟨hcs.1, hcs.2.1⟩)⟩

/-- C13. `GetCoupons` fails fast on the first miss. Over any repository: when
the lookups of the codes `pre` all succeed and the lookup of the next code
returns the error `e`, `GetCoupons(pre ++ code :: post)` returns no coupons
(nil) and an error that wraps `e` and whose message is
"error finding coupon " followed by that code, ": " and the message of `e`;
the repository is left in the state this failing lookup left, so the codes
`post` are not looked up. -/
theorem getCoupons_first_miss {σ : Type} (s : Service σ) (st st1 st2 : σ)
    (pre post : List String) (cs : List Coupon) (code : String) (ptr : Option Coupon)
    (e : Error) (hpre : AllFound s st pre cs st1)
    (hf : s.repo.FindByCode st1 code = Outcome.returns (ptr, some e) st2) :
    GetCoupons s st (pre ++ code :: post) =
      Outcome.returns
        (none, some (Error.wrapError
          ("error finding coupon " ++ code ++ ": " ++ e.message) e)) st2 := by
  simpa [GetCoupons] using getCouponsLoop_first_error s hpre code post ptr e hf []

/-- Instance of C13 on the in-memory store holding "TEST10":
`GetCoupons(["TEST10", "INVALID", "TEST10"])`. -/
theorem getCoupons_first_miss_witness :
    GetCoupons (New memdbRepository) sample.storeTest10 ["TEST10", "INVALID", "TEST10"] =
      Outcome.returns
        (none, some (Error.wrapError "error finding coupon INVALID: coupon not found"
          (Error.errorString "coupon not found"))) sample.storeTest10 :=
  getCoupons_first_miss (New memdbRepository) sample.storeTest10 sample.storeTest10
    sample.storeTest10 ["TEST10"] ["TEST10"] [sample.test10] "INVALID" none
    (Error.errorString "coupon not found")
    (AllFound.cons _ _ _ _ _ _ _ rfl (AllFound.nil _)) rfl

/-- C14. On the empty list of codes `GetCoupons` returns an empty, non-nil
list and no error, for every repository implementation and state, and does
not touch the repository. -/
theorem getCoupons_empty {σ : Type} (s : Service σ) (st : σ) :
    GetCoupons s st [] = Outcome.returns (some [], none) st := by
  simp [GetCoupons, getCouponsLoop]

end service

/-! ## Store and service together -/

namespace service

open entity

/-- C15. Create, then apply, on the in-memory store. In every state reachable
from `New()`, for every non-empty code, discount, minimum basket value and
identifier drawn, `CreateCoupon(discount, code, minBasketValue)` returns no
error, and `ApplyCoupon(b, code)` then returns, without error, the basket
`{Value: b.Value, AppliedDiscount: discount, ApplicationSuccessful: true,
CouponCode: code}` for every basket `b` with `b.Value > 0`. -/
theorem create_then_apply (r : memdb.Repository) (hr : memdb.Reachable r) (id code : String)
    (discount : Int) (minBasketValue : Float64) (b : Basket) (hcode : code ≠ "")
    (hpos : Float64.gt b.Value Float64.zero = true) :
    ∃ r1, CreateCoupon (New memdbRepository) r id discount code minBasketValue =
        Outcome.returns none r1 ∧
      ApplyCoupon (New memdbRepository) r1 b code =
        Outcome.returns
          (some { Value := b.Value, AppliedDiscount := discount,
                  ApplicationSuccessful := true, CouponCode := code }, none) r1 := by
  obtain ⟨r1, h1⟩ := memdb.save_returns r
    { ID := id, Code := code, Discount := discount, MinBasketValue := minBasketValue }
    (memdb.Reachable.entries_ne_none hr)
  have hi := GoMap.index_assign_self _ _ _ _ (memdb.save_eq_returns r r1 _ none h1).2
  refine ⟨r1, ?_, ?_⟩
  · simp [CreateCoupon, hcode, New, memdbRepository, h1]
  · simp [ApplyCoupon, hcode, New, memdbRepository, memdb.FindByCode, hi,
      Float64.le_eq_false_of_gt hpos]

/-- Instance of C15: on the fresh store, `CreateCoupon(10, "SUMMER2024", 50)`
and then `ApplyCoupon({Value: 100}, "SUMMER2024")`. -/
theorem create_then_apply_witness :
    ∃ r1, CreateCoupon (New memdbRepository) memdb.New sample.summer.ID 10 "SUMMER2024"
        Float64.fifty = Outcome.returns none r1 ∧
      ApplyCoupon (New memdbRepository) r1 (sample.basketOf Float64.hundred) "SUMMER2024" =
        Outcome.returns
          (some { Value := Float64.hundred, AppliedDiscount := 10,
                  ApplicationSuccessful := true, CouponCode := "SUMMER2024" }, none) r1 :=
  create_then_apply memdb.New memdb.Reachable.new sample.summer.ID "SUMMER2024" 10
    Float64.fifty (sample.basketOf Float64.hundred) (by decide) (by decide)

end service

namespace memdb

open entity

/-- C16. `Save` touches only its own key. For every store state, coupon `c`
and code `k` other than `c.Code`: whenever `Save(c)` returns, `FindByCode(k)`
gives afterwards what it gave before, the same coupon or the same
"coupon not found"; and `Save(c)` does return, without error, on every state
whose map is allocated. (On a receiver with a nil map, which `New()` never
produces, `Save` panics and there is no state afterwards.) -/
theorem save_other_keys (r : Repository) (c : Coupon) (k : String) (hk : k ≠ c.Code) :
    (∀ e r1, Save r c = Outcome.returns e r1 → FindByCode r1 k = FindByCode r k) ∧
    (r.entries ≠ none → ∃ r1, Save r c = Outcome.returns none r1) := by
  constructor
  · intro e r1 hs
    have ha := (save_eq_returns r r1 c e hs).2
    simp [FindByCode, GoMap.index_assign_of_ne _ _ _ _ _ ha hk]
  · intro hr
    exact save_returns r c hr

/-- Instance of C16: `Save(test10)` on the store holding "SUMMER2024" changes
neither the lookup of "SUMMER2024" nor the failing lookup of "TEST3". -/
theorem save_other_keys_witness :
    Save sample.storeSummer sample.test10 = Outcome.returns none sample.storeBoth ∧
    FindByCode sample.storeBoth "SUMMER2024" = FindByCode sample.storeSummer "SUMMER2024" ∧
    FindByCode sample.storeSummer "SUMMER2024" = (some sample.summer, none) ∧
    FindByCode sample.storeBoth "TEST3" = FindByCode sample.storeSummer "TEST3" ∧
    FindByCode sample.storeSummer "TEST3" =
      (none, some (Error.errorString "coupon not found")) :=
  ⟨rfl,
   (save_other_keys sample.storeSummer sample.test10 "SUMMER2024" (by decide)).1
     none sample.storeBoth rfl,
   rfl,
   (save_other_keys sample.storeSummer sample.test10 "TEST3" (by decide)).1
     none sample.storeBoth rfl,
   rfl⟩

end memdb

namespace service

open entity

/-- Writing only through `CreateCoupon` never stores an entry under the empty
code. -/
theorem CreatedOnly.index_empty {r : memdb.Repository} (h : CreatedOnly r) :
    r.entries.index "" = none := by
  induction h with
  | new => simp [memdb.New, GoMap.make, GoMap.index]
  | create r0 r1 id discount code minBasketValue e _ hc ih =>
    unfold CreateCoupon at hc
    split at hc
    · simp only [Outcome.returns.injEq] at hc
      rw [← hc.2]
      exact ih
    · next hne =>
      have ha := (memdb.save_eq_returns r0 r1 _ e hc).2
      rw [GoMap.index_assign_of_ne _ _ _ _ _ ha (Ne.symm hne)]
      exact ih

/-- C17. Store key invariant. In every state reachable from `New()` by `Save`
calls, a `FindByCode(k)` that returns a coupon returns one whose `Code` is
`k`; and in every state reached from `New()` through `Service.CreateCoupon`
calls only, `FindByCode("")` fails with "coupon not found". -/
theorem store_key_invariant :
    (∀ (r : memdb.Repository), memdb.Reachable r →
      ∀ (k : String) (c : Coupon) (e : Option Error),
        memdb.FindByCode r k = (some c, e) → c.Code = k) ∧
    (∀ (r : memdb.Repository), CreatedOnly r →
      memdb.FindByCode r "" = (none, some (Error.errorString "coupon not found"))) := by
  constructor
  · intro r hr k c e hf
    exact memdb.Reachable.index_code hr k c (memdb.findByCode_eq_some r k c e hf).1
  · intro r hr
    simp [memdb.FindByCode, CreatedOnly.index_empty hr]

/-- Instance of C17 on the store holding "SUMMER2024" and "TEST10", and on the
store after `CreateCoupon(10, "SUMMER2024", 50)`. -/
theorem store_key_invariant_witness :
    sample.test10.Code = "TEST10" ∧
    memdb.FindByCode sample.storeSummer "" =
      (none, some (Error.errorString "coupon not found")) :=
  ⟨store_key_invariant.1 sample.storeBoth
     (memdb.Reachable.save sample.storeSummer sample.storeBoth sample.test10 none
       (memdb.Reachable.save memdb.New sample.storeSummer sample.summer none
         memdb.Reachable.new rfl) rfl)
     "TEST10" sample.test10 none rfl,
   store_key_invariant.2 sample.storeSummer
     (CreatedOnly.create memdb.New sample.storeSummer sample.summer.ID 10 "SUMMER2024"
       Float64.fifty none CreatedOnly.new rfl)⟩

end service

namespace service

open entity

/-- What a call of `ApplyCoupon` that returns a basket went through. -/
theorem applyCoupon_eq_some {σ : Type} (s : Service σ) (st st1 : σ) (b b1 : Basket)
    (code : String) (e : Option Error)
    (h : ApplyCoupon s st b code = Outcome.returns (some b1, e) st1) :
    code ≠ "" ∧ e = none ∧ Float64.le b.Value Float64.zero = false ∧
      ∃ c, s.repo.FindByCode st code = Outcome.returns (some c, none) st1 ∧
        b1 = { Value := b.Value, AppliedDiscount := c.Discount,
               ApplicationSuccessful := true, CouponCode := code } := by
  unfold ApplyCoupon at h
  split at h
  · simp at h
  · next hcode =>
    split at h
    · cases h
    · next coupon err st2 hf =>
      split at h
      · simp at h
      · split at h
        · simp at h
        · next hv =>
          split at h
          · cases h
          · next c =>
            simp only [Outcome.returns.injEq, Prod.mk.injEq, Option.some.injEq] at h
            obtain ⟨⟨hb, he⟩, hst⟩ := h
            subst hst
            exact ⟨hcode, he.symm, by simpa using hv, c, hf, hb.symm⟩

/-- Only the `Value` of the basket handed in enters the outcome. -/
theorem applyCoupon_congr_value {σ : Type} (s : Service σ) (st : σ) (b b2 : Basket)
    (code : String) (hv : b2.Value = b.Value) :
    ApplyCoupon s st b2 code = ApplyCoupon s st b code := by
  simp only [ApplyCoupon, hv]

/-- C18. A later application overwrites an earlier one. Let `ApplyCoupon(b, c1)`
return the basket `b1` without error. Then, against any repository state and
for any code `c2`, `ApplyCoupon(b1, c2)` has the outcome of `ApplyCoupon(b, c2)`,
basket or error; against the state of the first call `ApplyCoupon(b1, c1)`
returns `b1` again; more generally two baskets with the same `Value` always
have the same outcome, so `AppliedDiscount`, `ApplicationSuccessful` and
`CouponCode` of the basket handed in are never read; and when the lookups of
the repository leave its state as it is (as in the in-memory store and in the
mock), `ApplyCoupon(b1, c1)` made after the first call returns `b1` too. -/
theorem applyCoupon_overwrites {σ : Type} (s : Service σ) (st st1 : σ) (b b1 : Basket)
    (c1 : String) (h : ApplyCoupon s st b c1 = Outcome.returns (some b1, none) st1) :
    (∀ (st2 : σ) (c2 : String), ApplyCoupon s st2 b1 c2 = ApplyCoupon s st2 b c2) ∧
    ApplyCoupon s st b1 c1 = Outcome.returns (some b1, none) st1 ∧
    (∀ (st2 : σ) (b2 : Basket) (code : String), b2.Value = b.Value →
      ApplyCoupon s st2 b2 code = ApplyCoupon s st2 b code) ∧
    ((∀ (st2 st3 : σ) (code : String) (v : Option Coupon × Option Error),
        s.repo.FindByCode st2 code = Outcome.returns v st3 → st3 = st2) →
      ApplyCoupon s st1 b1 c1 = Outcome.returns (some b1, none) st1) := by
  obtain ⟨_, _, _, c, hf, hb⟩ := applyCoupon_eq_some s st st1 b b1 c1 none h
  have hv : b1.Value = b.Value := by rw [hb]
  have hsame : ApplyCoupon s st b1 c1 = Outcome.returns (some b1, none) st1 := by
    rw [applyCoupon_congr_value s st b b1 c1 hv]
    exact h
  refine ⟨fun st2 c2 => applyCoupon_congr_value s st2 b b1 c2 hv, hsame,
    fun st2 b2 code h2 => applyCoupon_congr_value s st2 b b2 code h2, ?_⟩
  intro hro
  have hst : st1 = st := hro st st1 c1 _ hf
  rw [hst] at hsame ⊢
  exact hsame

/-- Instance of C18 on the in-memory store holding "SUMMER2024" and "TEST10":
the basket of value 100 after "TEST10", then "TEST10" again, "SUMMER2024",
and the unknown "TEST3". -/
theorem applyCoupon_overwrites_witness :
    ApplyCoupon (New memdbRepository) sample.storeBoth
        { Value := Float64.hundred, AppliedDiscount := 10,
          ApplicationSuccessful := true, CouponCode := "TEST10" } "TEST10" =
      Outcome.returns
        (some { Value := Float64.hundred, AppliedDiscount := 10,
                ApplicationSuccessful := true, CouponCode := "TEST10" }, none)
        sample.storeBoth ∧
    ApplyCoupon (New memdbRepository) sample.storeBoth
        { Value := Float64.hundred, AppliedDiscount := 10,
          ApplicationSuccessful := true, CouponCode := "TEST10" } "SUMMER2024" =
      ApplyCoupon (New memdbRepository) sample.storeBoth
        (sample.basketOf Float64.hundred) "SUMMER2024" ∧
    ApplyCoupon (New memdbRepository) sample.storeBoth
        { Value := Float64.hundred, AppliedDiscount := 10,
          ApplicationSuccessful := true, CouponCode := "TEST10" } "TEST3" =
      ApplyCoupon (New memdbRepository) sample.storeBoth
        (sample.basketOf Float64.hundred) "TEST3" :=
  ⟨(applyCoupon_overwrites (New memdbRepository) sample.storeBoth sample.storeBoth
      (sample.basketOf Float64.hundred)
      { Value := Float64.hundred, AppliedDiscount := 10,
        ApplicationSuccessful := true, CouponCode := "TEST10" } "TEST10" rfl).2.2.2
      (by
        intro st2 st3 code v hf
        simp only [New, memdbRepository, Outcome.returns.injEq] at hf
        exact hf.2.symm),
   (applyCoupon_overwrites (New memdbRepository) sample.storeBoth sample.storeBoth
      (sample.basketOf Float64.hundred)
      { Value := Float64.hundred, AppliedDiscount := 10,
        ApplicationSuccessful := true, CouponCode := "TEST10" } "TEST10" rfl).1
      sample.storeBoth "SUMMER2024",
   (applyCoupon_overwrites (New memdbRepository) sample.storeBoth sample.storeBoth
      (sample.basketOf Float64.hundred)
      { Value := Float64.hundred, AppliedDiscount := 10,
        ApplicationSuccessful := true, CouponCode := "TEST10" } "TEST10" rfl).1
      sample.storeBoth "TEST3"⟩

end service
